import Mathlib

/-!
# Verification of the RP_backend user-management service

Shallow embedding of the repository's auth middleware (`middleware/auth.js`,
given here as `src/unnamed/part_001`), the user schema (`src/models/User.js`),
and the user-service route handlers.  The route handler file
(`routes/users.js`) is not among the provided sources; its operations are
modelled from the specification (§4.2) and constrained by the Jest tests in
`src/unnamed/part_000`, and are marked `Modelled from the spec:` below.

External collaborators (the `jsonwebtoken` and `bcryptjs` libraries, the
Mongoose store) are modelled abstractly, as the spec directs (§1, §6).
-/

namespace RP

/-- An authenticated identity: the claims carried by a verified JWT payload
(`req.user`).  The observed code reads `req.user.role` (authorization) and
`req.user.id` (the `/users/me` handler per the tests). -/
structure Identity where
  role : String
  id : String
deriving DecidableEq, Repr

/-- JavaScript `String.prototype.split(' ')` on the character list of a
string: splits at every single space, keeping empty components, and yields
`[[]]` on the empty string — exactly the semantics `authenticateToken`
relies on in `authHeader.split(' ')[1]`. -/
def splitOnChar (sep : Char) : List Char → List (List Char)
  | [] => [[]]
  | c :: rest =>
    match splitOnChar sep rest with
    | [] => [[c]]
    | w :: ws => if c = sep then [] :: w :: ws else (c :: w) :: ws

/-- The value of the JavaScript expression
`authHeader && authHeader.split(' ')[1]` followed by the `token == null`
test, as an `Option`: `none` stands for a token that is `null`/`undefined`.
A missing header (`none`) short-circuits to `undefined`; an empty header
value short-circuits to the *empty string*, which is **not** `== null`;
otherwise the second space-separated component is taken, `undefined`
(hence `none`) when there is no such component. -/
def tokenOf : Option String → Option String
  | none => none
  | some h =>
    if h = "" then some ""
    else ((splitOnChar ' ' h.data).get? 1).map String.mk

/-- Outcome of a request-pipeline stage: either a short-circuiting JSON
error response (status, message) or the request proceeding with the
identity attached to `req.user`. -/
inductive AuthResult where
  | reject (status : Nat) (message : String)
  | proceed (user : Identity)
deriving DecidableEq, Repr

/-- The `authenticateToken` middleware of `src/unnamed/part_001`, lines
8–19, parameterised by the external `jwt.verify` primitive
(`verify t = none` models a verification error). -/
def authenticateToken (verify : String → Option Identity)
    (header : Option String) : AuthResult :=
  match tokenOf header with
  | none => .reject 401 "Unauthorized: No token provided"
  | some t =>
    match verify t with
    | none => .reject 403 "Unauthorized: Invalid token"
    | some u => .proceed u

/-- The `authorizeRole(role)` middleware of `src/unnamed/part_001`, lines
22–29: rejects with 403 when `req.user.role !== role`, otherwise lets the
request proceed (`none` = call `next()`). -/
def authorizeRole (role : String) (u : Identity) : Option (Nat × String) :=
  if u.role ≠ role then
    some (403, "Unauthorized: Requires " ++ role ++ " role")
  else none

/-- Modelled from the spec: the external `jsonwebtoken` verification
primitive (§6 "a signed-token primitive with sign and verify
operations").  A token is a dot-separated triple `role.id.signature`; it
verifies exactly when the signature equals the ambient secret.  The empty
string is not well formed and never verifies, as with the real library. -/
def jwtVerify (secret : String) (t : String) : Option Identity :=
  match splitOnChar '.' t.data with
  | [r, i, s] => if String.mk s = secret then some ⟨String.mk r, String.mk i⟩ else none
  | _ => none

/-- Modelled from the spec: the `bcryptjs` digest (§6 "a password-hashing
primitive with hash and verify operations").  A digest is a tagged
encoding embedding the salt (rendered as `salt` copies of `'*'`) and an
opaque one-way image of the plaintext (represented by the plaintext
itself, since only the algebra hash/verify is observable). -/
def hashChars (p : List Char) (salt : Nat) : List Char :=
  '$' :: (List.replicate salt '*' ++ '$' :: p)

/-- Modelled from the spec: `bcrypt.hash(plaintext, saltRounds)` with an
explicit salt argument standing for the randomly drawn salt. -/
def bcryptHash (p : String) (salt : Nat) : String :=
  String.mk (hashChars p.data salt)

/-- Modelled from the spec: `bcrypt.compare(plaintext, digest)` — extract
the salt from the digest and check the recomputed digest matches. -/
def bcryptCompare (p h : String) : Bool :=
  match h.data with
  | '$' :: rest => (rest.dropWhile (fun c => c == '*')) == '$' :: p.data
  | _ => false

/-- The persisted user record of `src/models/User.js` (`userSchema`).
The `password` field stores the bcrypt digest, never the plaintext (the
spec's `passwordHash`). -/
structure User where
  id : String
  username : String
  email : String
  password : String
  role : String
  company : Option String
  team : Option String
  permissions : List String
deriving DecidableEq, Repr

/-- The `role` enumeration of `userSchema`
(`enum: ['Super Admin', 'Team', 'Admin', 'Staff', 'User']`); the spec
renders the first value as `SuperAdmin`. -/
def validRole (r : String) : Bool :=
  (["Super Admin", "Team", "Admin", "Staff", "User"] : List String).contains r

/-- A JSON request body for create/update: every field optional, matching
the partial-update semantics of §4.2. -/
structure ReqBody where
  username : Option String
  email : Option String
  password : Option String
  role : Option String
  company : Option String
  team : Option String
  permissions : Option (List String)
deriving DecidableEq, Repr

/-- A serialized JSON response: status code plus one of the observed body
shapes (`{message}`, a user object as a field map, `{message, user}`, or
an array of user objects). -/
inductive Resp where
  | msg (status : Nat) (message : String)
  | userObj (status : Nat) (fields : List (String × String))
  | msgUser (status : Nat) (message : String) (fields : List (String × String))
  | userList (status : Nat) (records : List (List (String × String)))
deriving DecidableEq, Repr

/-- The HTTP status of a response. -/
def Resp.statusOf : Resp → Nat
  | .msg s _ => s
  | .userObj s _ => s
  | .msgUser s _ _ => s
  | .userList s _ => s

/-- Modelled from the spec: the response shaping of `Get`/`Update`/
`GetSelf` (§4.2: "returns the record with `passwordHash` excluded from
the response").  Optional fields are serialized when present; the
permission list is rendered as one JSON array value. -/
def publicUser (u : User) : List (String × String) :=
  [("_id", u.id), ("username", u.username), ("email", u.email), ("role", u.role)]
  ++ (match u.company with | some c => [("company", c)] | none => [])
  ++ (match u.team with | some t => [("team", t)] | none => [])
  ++ [("permissions", String.intercalate "," u.permissions)]

/-- Modelled from the spec: the full stored record as serialized by
`List()` (§4.2 "all user records" — the spec's no-hash guarantee covers
only `Get`, `Update`, `GetSelf`). -/
def recordFields (u : User) : List (String × String) :=
  [("_id", u.id), ("username", u.username), ("email", u.email),
   ("password", u.password), ("role", u.role)]
  ++ (match u.company with | some c => [("company", c)] | none => [])
  ++ (match u.team with | some t => [("team", t)] | none => [])
  ++ [("permissions", String.intercalate "," u.permissions)]

/-- Modelled from the spec: `Create(fields)` of §4.2 (`routes/users.js` is
not among the sources; messages and codes follow the tests in
`src/unnamed/part_000`).  Validates presence of the four required fields,
then username/email uniqueness, then the schema's role enumeration (the
store-level validation of `userSchema`); on success persists the record
with the bcrypt digest of the plaintext.  Returns the response and the
resulting store. -/
def createUser (store : List User) (b : ReqBody) (newId : String)
    (salt : Nat) : Resp × List User :=
  match b.username, b.email, b.password, b.role with
  | some un, some em, some pw, some rl =>
    if store.any (fun u => u.username == un || u.email == em) then
      (Resp.msg 400 "Username or email already exists", store)
    else if validRole rl then
      (Resp.msg 201 "User created successfully",
        store ++ [⟨newId, un, em, bcryptHash pw salt, rl,
                   b.company, b.team, b.permissions.getD []⟩])
    else
      (Resp.msg 500 "User validation failed", store)
  | _, _, _, _ =>
    (Resp.msg 400 "Username, email, password, and role are required", store)

/-- Modelled from the spec: `Get(id)` of §4.2 — `NotFound` when absent,
otherwise the record with the hash excluded. -/
def getUser (store : List User) (id : String) : Resp :=
  match store.find? (fun u => u.id == id) with
  | none => Resp.msg 404 "User not found"
  | some u => Resp.userObj 200 (publicUser u)

/-- Modelled from the spec: the partial-update application of §4.2 —
only the fields present in the request overwrite the prior values; a
supplied plaintext password is hashed with a fresh salt before storage. -/
def applyUpdate (u : User) (b : ReqBody) (salt : Nat) : User :=
  { u with
    username := b.username.getD u.username
    email := b.email.getD u.email
    password := match b.password with
                | some p => bcryptHash p salt
                | none => u.password
    role := b.role.getD u.role
    company := match b.company with | some c => some c | none => u.company
    team := match b.team with | some t => some t | none => u.team
    permissions := b.permissions.getD u.permissions }

/-- Modelled from the spec: `Update(id, partialFields)` of §4.2 —
`NotFound` when absent; a supplied role is validated against the schema
enumeration (§3 invariant); on success the updated record is stored and
returned with the hash excluded. -/
def updateUser (store : List User) (id : String) (b : ReqBody)
    (salt : Nat) : Resp × List User :=
  match store.find? (fun u => u.id == id) with
  | none => (Resp.msg 404 "User not found", store)
  | some u =>
    if b.role.all validRole then
      let u' := applyUpdate u b salt
      (Resp.msgUser 200 "User updated successfully" (publicUser u'),
       store.map (fun v => if v.id == id then u' else v))
    else
      (Resp.msg 500 "User validation failed", store)

/-- Modelled from the spec: `Delete(id)` of §4.2 — `NotFound` when absent,
otherwise hard delete and a success acknowledgment. -/
def deleteUser (store : List User) (id : String) : Resp × List User :=
  match store.find? (fun u => u.id == id) with
  | none => (Resp.msg 404 "User not found", store)
  | some _ =>
    (Resp.msg 200 "User deleted successfully",
     store.filter (fun v => !(v.id == id)))

/-- Modelled from the spec: `GetSelf(identity)` of §4.2 — resolves the
identifier carried in the authenticated identity. -/
def getSelf (store : List User) (ident : Identity) : Resp :=
  match store.find? (fun u => u.id == ident.id) with
  | none => Resp.msg 404 "User not found"
  | some u => Resp.userObj 200 (publicUser u)

/-- Modelled from the spec: the `GET /users` route pipeline (§6 — token +
SuperAdmin role, then `List()`): `authenticateToken`, then
`authorizeRole` with the store's top-role literal. -/
def listRoute (verify : String → Option Identity) (header : Option String)
    (store : List User) : Resp :=
  match authenticateToken verify header with
  | .reject s m => Resp.msg s m
  | .proceed u =>
    match authorizeRole "Super Admin" u with
    | some (s, m) => Resp.msg s m
    | none => Resp.userList 200 (store.map recordFields)

/-- Modelled from the spec: the `DELETE /users/:id` route pipeline (§6 —
token + SuperAdmin role, then `Delete(id)`). -/
def deleteRoute (verify : String → Option Identity) (header : Option String)
    (store : List User) (id : String) : Resp × List User :=
  match authenticateToken verify header with
  | .reject s m => (Resp.msg s m, store)
  | .proceed u =>
    match authorizeRole "Super Admin" u with
    | some (s, m) => (Resp.msg s m, store)
    | none => deleteUser store id

/-- The role invariant of §3: every persisted record's role is one of the
five enumerated values. -/
def roleInvariant (store : List User) : Prop :=
  ∀ u ∈ store, validRole u.role = true

/-- A response body never exposes the stored digest: no serialized field
map in it carries the `password` key. -/
def noHashResp : Resp → Bool
  | .msg _ _ => true
  | .userObj _ fs => fs.all (fun kv => !(kv.1 == "password"))
  | .msgUser _ _ fs => fs.all (fun kv => !(kv.1 == "password"))
  | .userList _ rs => rs.all (fun fs => fs.all (fun kv => !(kv.1 == "password")))

/-- The fixture record of the test suite (`testUser` in
`src/unnamed/part_000`), as persisted with a hashed password. -/
def testUserStored : User :=
  ⟨"id1", "testuser", "test@example.com", bcryptHash "testpassword" 7,
   "Admin", some "Test Company", some "Test Team", ["read", "write"]⟩

/-- A complete creation body mirroring the test fixture. -/
def testCreateBody : ReqBody :=
  ⟨some "testuser", some "test@example.com", some "testpassword",
   some "Admin", some "Test Company", some "Test Team",
   some ["read", "write"]⟩

/-- A partial update body supplying only a new password, as in the
`PUT /users/:id` password test. -/
def passwordOnlyBody : ReqBody :=
  ⟨none, none, some "newpassword", none, none, none, none⟩

/-! ## Helper lemmas about the hashing model -/

theorem dropWhile_star_replicate (s : Nat) (l : List Char) :
    (List.replicate s '*' ++ '$' :: l).dropWhile (fun c => c == '*') = '$' :: l := by
  induction s with
  | zero => simp [List.dropWhile_cons]
  | succ n ih => simp [List.replicate_succ, List.dropWhile_cons, ih]

theorem bcryptCompare_hash (p : String) (s : Nat) :
    bcryptCompare p (bcryptHash p s) = true := by
  simp [bcryptCompare, bcryptHash, hashChars, dropWhile_star_replicate]

theorem bcryptHash_ne_plain (p : String) (s : Nat) : bcryptHash p s ≠ p := by
  intro h
  have hlen := congrArg (fun t => t.data.length) h
  simp [bcryptHash, hashChars] at hlen
  omega

theorem replicate_star_dollar_inj (s : Nat) :
    ∀ (s' : Nat) (p q : List Char),
      List.replicate s '*' ++ '$' :: p = List.replicate s' '*' ++ '$' :: q →
      s = s' ∧ p = q := by
  induction s with
  | zero =>
    intro s' p q h
    cases s' with
    | zero => simpa using h
    | succ n => simp [List.replicate_succ] at h
  | succ n ih =>
    intro s' p q h
    cases s' with
    | zero => simp [List.replicate_succ] at h
    | succ m =>
      simp only [List.replicate_succ, List.cons_append, List.cons.injEq] at h
      obtain ⟨hs, hp⟩ := ih m p q h.2
      exact ⟨by omega, hp⟩

theorem bcryptHash_salt_inj {p q : String} {s s' : Nat}
    (h : bcryptHash p s = bcryptHash q s') : s = s' := by
  have h2 : hashChars p.data s = hashChars q.data s' := congrArg String.data h
  simp only [hashChars, List.cons.injEq, true_and] at h2
  exact (replicate_star_dollar_inj s s' p.data q.data h2).1

/-! ## Claim theorems -/

/-- C1 (counterexample): a present but unverifiable token is rejected with
status **403**, not 401 as the claim's interface-table reading asserts;
the no-credentials and invalid-credentials messages are nonetheless
distinct. -/
theorem c1_invalid_token_status_403 :
    authenticateToken (jwtVerify "sek") (some "Bearer bad.token") =
      AuthResult.reject 403 "Unauthorized: Invalid token" ∧
    (403 : Nat) ≠ 401 := by
  constructor
  · rfl
  · decide

/-- C1 (amended): `authenticateToken` fails with the distinct
no-credentials response (status 401, message
"Unauthorized: No token provided") when no token is extracted from the
request, and with the invalid-credentials response (status **403**,
message "Unauthorized: Invalid token") when a token is present but fails
verification; the two error messages are distinct. -/
theorem c1_authenticate_statuses (verify : String → Option Identity)
    (header : Option String) :
    (tokenOf header = none →
      authenticateToken verify header =
        .reject 401 "Unauthorized: No token provided") ∧
    (∀ t, tokenOf header = some t → verify t = none →
      authenticateToken verify header =
        .reject 403 "Unauthorized: Invalid token") ∧
    "Unauthorized: No token provided" ≠ "Unauthorized: Invalid token" := by
  refine ⟨fun h => ?_, fun t ht hv => ?_, by decide⟩
  · simp [authenticateToken, h]
  · simp [authenticateToken, ht, hv]

/-- C1 witness: the amended statement evaluated at a missing header and at
a header carrying an unverifiable token. -/
theorem c1_authenticate_statuses_witness :
    authenticateToken (jwtVerify "sek") none =
      .reject 401 "Unauthorized: No token provided" ∧
    authenticateToken (jwtVerify "sek") (some "Bearer zz") =
      .reject 403 "Unauthorized: Invalid token" :=
  ⟨(c1_authenticate_statuses (jwtVerify "sek") none).1 rfl,
   (c1_authenticate_statuses (jwtVerify "sek") (some "Bearer zz")).2.1
     "zz" rfl rfl⟩

/-- C2: `authorizeRole r` rejects (with the Forbidden pair: status 403)
exactly when the identity's role differs from `r` by string equality; a
SuperAdmin identity is not authorized for a route requiring Admin; and
the List and Delete pipelines answer 403 Forbidden for every
authenticated identity whose role is not the top role, token validity
notwithstanding. -/
theorem c2_authorize_exact_role :
    (∀ (r : String) (u : Identity),
      (∃ s m, authorizeRole r u = some (s, m)) ↔ u.role ≠ r) ∧
    (∀ i, authorizeRole "Admin" ⟨"Super Admin", i⟩ =
      some (403, "Unauthorized: Requires Admin role")) ∧
    (∀ (verify : String → Option Identity) (header : Option String)
       (store : List User) (u : Identity),
      authenticateToken verify header = .proceed u →
      u.role ≠ "Super Admin" →
      listRoute verify header store =
        Resp.msg 403 "Unauthorized: Requires Super Admin role" ∧
      ∀ id, deleteRoute verify header store id =
        (Resp.msg 403 "Unauthorized: Requires Super Admin role", store)) := by
  refine ⟨fun r u => ?_, fun i => ?_, fun verify header store u hauth hne => ?_⟩
  · constructor
    · rintro ⟨s, m, h⟩
      by_contra heq
      simp [authorizeRole, heq] at h
    · intro hne
      exact ⟨403, "Unauthorized: Requires " ++ r ++ " role",
        by simp [authorizeRole, hne]⟩
  · simp [authorizeRole]
  · constructor
    · simp [listRoute, hauth, authorizeRole, hne]
    · intro id
      simp [deleteRoute, hauth, authorizeRole, hne]

/-- C2 witness: an Admin identity, carried by a validly signed token, is
turned away from the SuperAdmin-only List and Delete routes with 403. -/
theorem c2_authorize_exact_role_witness :
    listRoute (jwtVerify "sek") (some "Bearer Admin.u1.sek") [] =
      Resp.msg 403 "Unauthorized: Requires Super Admin role" ∧
    deleteRoute (jwtVerify "sek") (some "Bearer Admin.u1.sek") [] "id1" =
      (Resp.msg 403 "Unauthorized: Requires Super Admin role", []) :=
  have h := c2_authorize_exact_role.2.2 (jwtVerify "sek")
    (some "Bearer Admin.u1.sek") [] ⟨"Admin", "u1"⟩ (by decide) (by decide)
  ⟨h.1, h.2 "id1"⟩

/-- C10 (counterexample): the empty-string `Authorization` header value
has no second space-separated component, yet `authenticateToken` answers
with the invalid-token 403 response rather than the no-token 401 response:
the JavaScript `authHeader && authHeader.split(' ')[1]` short-circuits to
the empty string, which is not `== null`, so verification is attempted. -/
theorem c10_empty_header_reaches_verify :
    (splitOnChar ' ' ("".data)).get? 1 = none ∧
    authenticateToken (jwtVerify "sek") (some "") =
      AuthResult.reject 403 "Unauthorized: Invalid token" := by
  constructor
  · rfl
  · rfl

/-- C10 (amended): when the `Authorization` header is absent, or its value
is a **non-empty** string with no second space-separated component,
`authenticateToken` rejects with the no-token response (401,
"Unauthorized: No token provided") and never consults the verifier; the
empty-string header value instead falls through to token verification. -/
theorem c10_no_second_component (verify : String → Option Identity)
    (header : Option String)
    (h : header = none ∨ ∃ s, header = some s ∧ s ≠ "" ∧
          (splitOnChar ' ' s.data).get? 1 = none) :
    authenticateToken verify header =
      .reject 401 "Unauthorized: No token provided" := by
  rcases h with rfl | ⟨s, rfl, hne, hsplit⟩
  · rfl
  · have hsplit' : (splitOnChar ' ' s.data)[1]? = none := by
      simpa [List.get?_eq_getElem?] using hsplit
    simp [authenticateToken, tokenOf, hne, hsplit']

/-- C10 witness: a bare token sent without the `Bearer ` prefix is
rejected as missing, whatever the verifier would say. -/
theorem c10_no_second_component_witness :
    authenticateToken (jwtVerify "sek") (some "rawtoken") =
      .reject 401 "Unauthorized: No token provided" :=
  c10_no_second_component (jwtVerify "sek") (some "rawtoken")
    (Or.inr ⟨"rawtoken", rfl, by decide, rfl⟩)

/-- C4: a creation request whose username or email already exists in the
store fails with the DuplicateError response (HTTP 400,
"Username or email already exists") and leaves the store unchanged. -/
theorem c4_duplicate_create (store : List User) (b : ReqBody)
    (newId : String) (salt : Nat) (un em pw rl : String)
    (hun : b.username = some un) (hem : b.email = some em)
    (hpw : b.password = some pw) (hrl : b.role = some rl)
    (hdup : store.any (fun u => u.username == un || u.email == em) = true) :
    createUser store b newId salt =
      (Resp.msg 400 "Username or email already exists", store) := by
  simp [createUser, hun, hem, hpw, hrl, hdup]

/-- C4 witness: re-creating the stored test user is refused as a
duplicate with the store untouched. -/
theorem c4_duplicate_create_witness :
    createUser [testUserStored] testCreateBody "id2" 9 =
      (Resp.msg 400 "Username or email already exists", [testUserStored]) :=
  c4_duplicate_create [testUserStored] testCreateBody "id2" 9
    "testuser" "test@example.com" "testpassword" "Admin"
    rfl rfl rfl rfl (by decide)

/-- C5: a creation request missing any of username, email, password, role
fails with the ValidationError response (HTTP 400,
"Username, email, password, and role are required") and leaves the store
unchanged. -/
theorem c5_missing_fields (store : List User) (b : ReqBody)
    (newId : String) (salt : Nat)
    (h : b.username = none ∨ b.email = none ∨ b.password = none ∨
         b.role = none) :
    createUser store b newId salt =
      (Resp.msg 400 "Username, email, password, and role are required",
       store) := by
  cases hun : b.username <;> cases hem : b.email <;>
    cases hpw : b.password <;> cases hrl : b.role <;>
    simp_all [createUser]

/-- C5 witness: a body carrying only an email is rejected for missing
fields, with the store untouched. -/
theorem c5_missing_fields_witness :
    createUser [] ⟨none, some "test@example.com", none, none, none, none,
        none⟩ "id1" 3 =
      (Resp.msg 400 "Username, email, password, and role are required",
       []) :=
  c5_missing_fields [] _ "id1" 3 (Or.inl rfl)

/-- C7: for an identifier not present in the store, Get, Update and
Delete each fail with HTTP 404 and body message "User not found", and the
store is unchanged. -/
theorem c7_not_found (store : List User) (id : String) (b : ReqBody)
    (salt : Nat) (h : ∀ u ∈ store, u.id ≠ id) :
    getUser store id = Resp.msg 404 "User not found" ∧
    updateUser store id b salt = (Resp.msg 404 "User not found", store) ∧
    deleteUser store id = (Resp.msg 404 "User not found", store) := by
  have hf : store.find? (fun u => u.id == id) = none := by
    rw [List.find?_eq_none]
    intro u hu
    simpa using h u hu
  exact ⟨by simp [getUser, hf], by simp [updateUser, hf],
    by simp [deleteUser, hf]⟩

/-- C7 witness: the unknown identifier of the tests misses the singleton
store on all three operations. -/
theorem c7_not_found_witness :
    getUser [testUserStored] "1234567890" = Resp.msg 404 "User not found" ∧
    updateUser [testUserStored] "1234567890" passwordOnlyBody 8 =
      (Resp.msg 404 "User not found", [testUserStored]) ∧
    deleteUser [testUserStored] "1234567890" =
      (Resp.msg 404 "User not found", [testUserStored]) :=
  c7_not_found [testUserStored] "1234567890" passwordOnlyBody 8 (by decide)

/-- C8: a creation request with all four fields, a fresh username/email
pair and a schema-valid role succeeds with HTTP 201 and the bare success
message (not the record); the persisted digest verifies against the
original plaintext yet never equals it. -/
theorem c8_create_success (store : List User) (b : ReqBody)
    (newId : String) (salt : Nat) (un em pw rl : String)
    (hun : b.username = some un) (hem : b.email = some em)
    (hpw : b.password = some pw) (hrl : b.role = some rl)
    (hnodup : store.any (fun u => u.username == un || u.email == em) = false)
    (hrole : validRole rl = true) :
    createUser store b newId salt =
      (Resp.msg 201 "User created successfully",
       store ++ [⟨newId, un, em, bcryptHash pw salt, rl, b.company, b.team,
                  b.permissions.getD []⟩]) ∧
    bcryptCompare pw (bcryptHash pw salt) = true ∧
    bcryptHash pw salt ≠ pw :=
  ⟨by simp [createUser, hun, hem, hpw, hrl, hnodup, hrole],
   bcryptCompare_hash pw salt, bcryptHash_ne_plain pw salt⟩

/-- C8 witness: creating the test user in the empty store succeeds and
stores a verifying, non-plaintext digest. -/
theorem c8_create_success_witness :
    createUser [] testCreateBody "id1" 7 =
      (Resp.msg 201 "User created successfully", [testUserStored]) ∧
    bcryptCompare "testpassword" (bcryptHash "testpassword" 7) = true ∧
    bcryptHash "testpassword" 7 ≠ "testpassword" :=
  c8_create_success [] testCreateBody "id1" 7
    "testuser" "test@example.com" "testpassword" "Admin"
    rfl rfl rfl rfl rfl (by decide)

/-- C3: every operation that writes a user preserves the invariant that
each persisted record's role lies in the five-value enumeration of
`userSchema` (`Super Admin`, `Team`, `Admin`, `Staff`, `User` — the spec
renders the first as SuperAdmin). -/
theorem c3_role_enum_invariant (store : List User) (h : roleInvariant store) :
    (∀ b newId salt, roleInvariant (createUser store b newId salt).2) ∧
    (∀ id b salt, roleInvariant (updateUser store id b salt).2) ∧
    (∀ id, roleInvariant (deleteUser store id).2) := by
  refine ⟨fun b newId salt => ?_, fun id b salt => ?_, fun id => ?_⟩
  · intro u hu
    unfold createUser at hu
    split at hu
    · rename_i un em pw rl _ _ _ _
      split at hu
      · exact h u hu
      · split at hu
        · rename_i hrole
          have hu' : u ∈ store ++
              [(⟨newId, un, em, bcryptHash pw salt, rl, b.company, b.team,
                 b.permissions.getD []⟩ : User)] := hu
          rcases List.mem_append.1 hu' with hmem | hmem
          · exact h u hmem
          · rw [List.mem_singleton] at hmem
            subst hmem
            exact hrole
        · exact h u hu
    · exact h u hu
  · intro u hu
    cases hf : store.find? (fun v => v.id == id) with
    | none =>
      simp [updateUser, hf] at hu
      exact h u hu
    | some v =>
      have hv : v ∈ store := List.mem_of_find?_eq_some hf
      by_cases hall : b.role.all validRole = true
      · simp [updateUser, hf, hall] at hu
        rcases hu with ⟨w, hw, hwu⟩
        subst hwu
        by_cases hid : w.id = id
        · rw [if_pos hid]
          cases hrl : b.role with
          | none => simpa [applyUpdate, hrl] using h v hv
          | some r =>
            have : validRole r = true := by simpa [hrl] using hall
            simpa [applyUpdate, hrl] using this
        · rw [if_neg hid]
          exact h w hw
      · simp [updateUser, hf, hall] at hu
        exact h u hu
  · intro u hu
    cases hf : store.find? (fun v => v.id == id) with
    | none =>
      simp [deleteUser, hf] at hu
      exact h u hu
    | some v =>
      simp [deleteUser, hf] at hu
      exact h u hu.1

/-- C3 witness: the invariant evaluated across a create on the singleton
test store. -/
theorem c3_role_enum_invariant_witness :
    roleInvariant (createUser [testUserStored]
      ⟨some "alice", some "alice@x.com", some "pw", some "User", none,
       none, none⟩ "id2" 4).2 :=
  (c3_role_enum_invariant [testUserStored]
    (by intro u hu; rw [List.mem_singleton] at hu; subst hu; decide)).1
    _ "id2" 4

/-- C6: for a user found in the store, Update has partial-update
semantics.  Supplying a password stores the fresh-salt digest of it,
which verifies against the supplied plaintext and differs from the prior
digest (salts of distinct hashing calls being distinct); omitting the
password leaves the digest untouched; every omitted field retains its
prior value; and the updated record is what gets persisted and returned
(HTTP 200). -/
theorem c6_partial_update (store : List User) (id : String) (u : User)
    (b : ReqBody) (salt : Nat)
    (hfind : store.find? (fun v => v.id == id) = some u)
    (hrole : b.role.all validRole = true) :
    (∀ p, b.password = some p →
      (applyUpdate u b salt).password = bcryptHash p salt ∧
      bcryptCompare p (applyUpdate u b salt).password = true ∧
      ∀ q s₀, u.password = bcryptHash q s₀ → s₀ ≠ salt →
        (applyUpdate u b salt).password ≠ u.password) ∧
    (b.password = none → (applyUpdate u b salt).password = u.password) ∧
    (b.username = none → (applyUpdate u b salt).username = u.username) ∧
    (b.email = none → (applyUpdate u b salt).email = u.email) ∧
    (b.role = none → (applyUpdate u b salt).role = u.role) ∧
    (b.company = none → (applyUpdate u b salt).company = u.company) ∧
    (b.team = none → (applyUpdate u b salt).team = u.team) ∧
    (b.permissions = none →
      (applyUpdate u b salt).permissions = u.permissions) ∧
    updateUser store id b salt =
      (Resp.msgUser 200 "User updated successfully"
        (publicUser (applyUpdate u b salt)),
       store.map (fun v => if v.id == id then applyUpdate u b salt else v)) := by
  refine ⟨fun p hp => ⟨?_, ?_, fun q s₀ hold hne => ?_⟩,
    fun hp => ?_, fun hx => ?_, fun hx => ?_, fun hx => ?_, fun hx => ?_,
    fun hx => ?_, fun hx => ?_, ?_⟩
  · simp [applyUpdate, hp]
  · simp [applyUpdate, hp, bcryptCompare_hash]
  · simp only [applyUpdate, hp]
    intro hcontra
    rw [hold] at hcontra
    exact hne (bcryptHash_salt_inj hcontra.symm)
  · simp [applyUpdate, hp]
  · simp [applyUpdate, hx]
  · simp [applyUpdate, hx]
  · simp [applyUpdate, hx]
  · simp [applyUpdate, hx]
  · simp [applyUpdate, hx]
  · simp [applyUpdate, hx]
  · simp [updateUser, hfind, hrole]

/-- C6 witness: the password-only update of the tests, on the singleton
store, at a salt distinct from the creation salt. -/
theorem c6_partial_update_witness :
    (applyUpdate testUserStored passwordOnlyBody 8).password =
      bcryptHash "newpassword" 8 ∧
    bcryptCompare "newpassword"
      (applyUpdate testUserStored passwordOnlyBody 8).password = true ∧
    (applyUpdate testUserStored passwordOnlyBody 8).password ≠
      testUserStored.password ∧
    (applyUpdate testUserStored passwordOnlyBody 8).username =
      testUserStored.username :=
  have h := c6_partial_update [testUserStored] "id1" testUserStored
    passwordOnlyBody 8 rfl rfl
  have hp := h.1 "newpassword" rfl
  ⟨hp.1, hp.2.1, hp.2.2 "testpassword" 7 rfl (by decide), h.2.2.1 rfl⟩

/-- C9: the response bodies of Get, Update and GetSelf never carry a
`password` field: every serialized field map they emit excludes the
stored digest. -/
theorem c9_responses_no_hash (store : List User) (id : String)
    (ident : Identity) (b : ReqBody) (salt : Nat) :
    noHashResp (getUser store id) = true ∧
    noHashResp (updateUser store id b salt).1 = true ∧
    noHashResp (getSelf store ident) = true := by
  have hp : ∀ u : User,
      (publicUser u).all (fun kv => !(kv.1 == "password")) = true := by
    intro u
    cases hc : u.company <;> cases ht : u.team <;>
      simp [publicUser, hc, ht]
  refine ⟨?_, ?_, ?_⟩
  · cases hf : store.find? (fun v => v.id == id) with
    | none => simp [getUser, hf, noHashResp]
    | some u => simp [getUser, hf, noHashResp, hp]
  · cases hf : store.find? (fun v => v.id == id) with
    | none => simp [updateUser, hf, noHashResp]
    | some u =>
      by_cases hall : b.role.all validRole = true
      · simp [updateUser, hf, hall, noHashResp, hp]
      · simp [updateUser, hf, hall, noHashResp]
  · cases hf : store.find? (fun v => v.id == ident.id) with
    | none => simp [getSelf, hf, noHashResp]
    | some u => simp [getSelf, hf, noHashResp, hp]

end RP
